import Mathlib

/-!
Verification of the MagCS magnetic-precipitation sizing engine
(`magnetic_precipitation_app.py`) against its specification.

The engine is embedded shallowly: purely rational computations of the source
(motor catalog selection, retention-time rules, bracket lookup tables) become
computable functions over `ℚ`; the real-valued formula pipelines (geometry with
cube roots, `π`, square roots, velocity gradients, the draft-tube model) become
functions over `ℝ`.  Each definition carries a reference to the source lines it
embeds.
-/

/- ============================ Definitions ============================ -/

/-- Fixed ascending motor catalog `motor_power_options` (source line 59):
`[0.37, 0.55, 0.75, 1.1, 1.5, 2.2, 3, 4, 5.5, 7.5, 11, 15, 22]`. -/
def motorPowerOptions : List ℚ :=
  [37/100, 55/100, 75/100, 11/10, 3/2, 11/5, 3, 4, 11/2, 15/2, 11, 15, 22]

/-- Margined required power of `select_motor_power` (source lines 112-115):
`calculated_power * 1.2` below 2.5 kW, `calculated_power + 0.5` at or above. -/
def requiredPower (p : ℚ) : ℚ :=
  if p < 5/2 then p * (6/5) else p + 1/2

/-- Catalog scan of `select_motor_power` (source lines 118-121): the Python
for-loop returns the first catalog entry at or above the margined power; falling
through the loop returns `motor_power_options[-1]`, i.e. 22. -/
def catalogScan (req : ℚ) : List ℚ → ℚ
  | [] => 22
  | c :: rest => if req ≤ c then c else catalogScan req rest

/-- Motor selection (`select_motor_power`, source lines 110-121). -/
def selectMotorPower (p : ℚ) : ℚ :=
  catalogScan (requiredPower p) motorPowerOptions

/-- T1 forward-mode retention time rule (source lines 812-819). -/
def t1RetentionTime (ss : ℚ) : ℚ :=
  if 150 ≤ ss then 90 else if 100 < ss then 80 else if 20 < ss then 70 else 60

/-- T2 forward-mode retention time rule (source lines 881-888). -/
def t2RetentionTime (ss : ℚ) : ℚ :=
  if 130 ≤ ss then 120 else if 100 < ss then 110 else if 20 < ss then 100 else 90

/-- T3 forward-mode retention time rule (source lines 950-959): 200 s at or above
150 mg/L, the interpolation `180 + (ss - 50) * (200 - 180) / 50` on both the
`ss > 100` and the `50 < ss ≤ 100` branches, 180 s at or below 50 mg/L. -/
def t3RetentionTime (ss : ℚ) : ℚ :=
  if 150 ≤ ss then 200
  else if 100 < ss then 180 + (ss - 50) * (200 - 180) / 50
  else if 50 < ss then 180 + (ss - 50) * (200 - 180) / 50
  else 180

/-- Single-stage flocculation retention time rule (source lines 450-456). -/
def flocRetentionTime (ss : ℚ) : ℚ :=
  if 150 ≤ ss then 120 else if 50 < ss then 105 else 90

/-- Single-stage flocculation paddle tip-speed rule (source lines 564-569). -/
def flocTipSpeed (ss : ℚ) : ℚ :=
  if 150 ≤ ss then 21/5 else if 50 < ss then 37/10 else 16/5

/-- Impeller diameter-to-basin ratio rule shared by T1/T2/T3 and the
flocculation basin (source lines 573-578, 1038-1044, 1334-1340). -/
def mixerDiameterRatio (ss : ℚ) : ℚ :=
  if 500 ≤ ss then 1/2
  else if 100 < ss then 1/3 + (ss - 100) * (1/2 - 1/3) / 400
  else 1/3

/-- Paddle blade-width bracket on the impeller diameter
(source lines 612-621, 1111-1120, 1382-1391). -/
def bladeWidth (d1 : ℚ) : ℚ :=
  if d1 ≤ 1/2 then 1/10
  else if d1 < 1 then 3/20
  else if d1 < 8/5 then 1/5
  else if d1 < 2 then 1/4
  else 3/10

/-- Python `math.radians`: degrees to radians. -/
noncomputable def radians (x : ℝ) : ℝ := x * Real.pi / 180

/-- Forward-mode basin volume `V1 = flow_rate * t1 / (24 * 3600)`
(source lines 823, 892, 963, 460). -/
def forwardVolume (flow t1 : ℚ) : ℚ := flow * t1 / (24 * 3600)

/-- Forward-mode circular diameter `D = (V1 / 1.5) ** (1 / 3)`
(source lines 829, 898, 969). -/
noncomputable def circularDiameter (V1 : ℚ) : ℝ := ((V1 : ℝ) / 1.5) ^ ((1 : ℝ) / 3)

/-- Forward-mode square-footprint side `l = (V1 / 1.5) ** (1 / 3)`
(source lines 835, 904, 975, 465). -/
noncomputable def rectSide (V1 : ℚ) : ℝ := ((V1 : ℝ) / 1.5) ^ ((1 : ℝ) / 3)

/-- Hydraulic-equivalent diameter `D = sqrt(4 * l * w / π)`
(source lines 837, 906, 977, 467). -/
noncomputable def equivDiameter (l w : ℝ) : ℝ := Real.sqrt (4 * l * w / Real.pi)

/-- Reverse-mode circular volume `V1 = (π * D² / 4) * h2` (source line 844). -/
noncomputable def reverseCircularVolume (D h2 : ℝ) : ℝ := Real.pi * D ^ 2 / 4 * h2

/-- Reverse-mode rectangular volume `V1 = l * w * h2` (source line 849). -/
noncomputable def reverseRectVolume (l w h2 : ℝ) : ℝ := l * w * h2

/-- Reverse-mode retention time `t1 = (V1 * 24 * 3600) / flow_rate`
(source lines 854, 923, 994). -/
noncomputable def reverseRetentionTime (V1 : ℝ) (flow : ℚ) : ℝ :=
  V1 * 24 * 3600 / (flow : ℝ)

/-- Forward geometry then reverse mode, circular shape: the forward-mode
diameter and effective depth `h2 = 1.5 * D` are fed back into reverse mode with
the same flow. -/
noncomputable def roundTripCircular (flow t1 : ℚ) : ℝ :=
  reverseRetentionTime
    (reverseCircularVolume (circularDiameter (forwardVolume flow t1))
      (1.5 * circularDiameter (forwardVolume flow t1))) flow

/-- Forward geometry then reverse mode, rectangular shape: the forward-mode
sides `l = w` and effective depth `h2 = 1.5 * equivDiameter` are fed back into
reverse mode with the same flow. -/
noncomputable def roundTripRect (flow t1 : ℚ) : ℝ :=
  reverseRetentionTime
    (reverseRectVolume (rectSide (forwardVolume flow t1)) (rectSide (forwardVolume flow t1))
      (1.5 * equivDiameter (rectSide (forwardVolume flow t1)) (rectSide (forwardVolume flow t1))))
    flow

/-- Tube-settler utilization bracket `tube_utilization_rules`
(source lines 17-23 and 140-143); the final table entry (threshold 999999999)
serves as the value for all larger flows. -/
def tubeUtilizationRule (flow : ℚ) : ℚ :=
  if flow ≤ 3000 then 41/50
  else if flow ≤ 7500 then 87/100
  else if flow ≤ 15000 then 87/100
  else if flow ≤ 30000 then 91/100
  else 93/100

/-- Sludge-hopper lower-diameter bracket `sludge_hopper_diameter_rules`
(source lines 25-30 and 238-241). -/
def sludgeHopperDiameterRule (flow : ℚ) : ℚ :=
  if flow ≤ 2000 then 17/50
  else if flow ≤ 15000 then 21/50
  else if flow ≤ 30000 then 9/20
  else 11/20

/-- Sludge-hopper height bracket `sludge_hopper_height_rules`
(source lines 32-37 and 244-247). -/
def sludgeHopperHeightRule (flow : ℚ) : ℚ :=
  if flow ≤ 2000 then 3/10
  else if flow ≤ 5000 then 2/5
  else if flow ≤ 15000 then 9/20
  else 1/2

/-- Tube-length to vertical-height map `tube_length_height_map`
(source lines 52-57 and 189). -/
def tubeLengthHeight (lt : ℚ) : ℚ :=
  if lt = 4/5 then 693/1000
  else if lt = 1 then 866/1000
  else if lt = 6/5 then 1039/1000
  else 1299/1000

/-- Occlusion distance per tube-length class `l_occlusion_map` (source line 181). -/
def tubeOcclusion (lt : ℚ) : ℚ :=
  if lt = 4/5 then 2/5
  else if lt = 1 then 1/2
  else if lt = 6/5 then 3/5
  else 3/4

/-- Tube-length selection (source lines 157-178).  The source tests
`if total_height is None:` and inside that branch immediately evaluates
`total_height < 2.9`, so a missing total height raises a `TypeError` (modelled
as `none`); when a total height IS supplied, the `else` branch ignores it and
brackets the flow-based estimate `2 + flow_rate / 5000` instead. -/
def sedTubeLength (flow : ℚ) (totalHeight : Option ℚ) : Option ℚ :=
  match totalHeight with
  | none => none
  | some _ =>
      some (if 2 + flow / 5000 < 29/10 then 4/5
            else if 2 + flow / 5000 < 24/5 then 1
            else if 2 + flow / 5000 < 6 then 6/5
            else 3/2)

/-- Result bag of the forward-mode sedimentation pipeline, scoped to the
plan-area, tube, hopper and bottom-slope quantities the claims reference. -/
structure SedResult where
  nTubeDesign : ℚ
  aSedimentation : ℚ
  lPool : ℝ
  bPool : ℝ
  lTube : ℚ
  lOcclusion : ℚ
  nTubeActual : ℝ
  h3 : ℚ
  dSludge : ℚ
  h6 : ℚ
  dSludgeUpper : ℝ
  h5 : ℝ

/-- Forward-mode sedimentation design (`calculate_sedimentation_pool`, source
lines 138-262), scoped to steps 1-6.6: tube utilization, plan area
`A = Q_h / (n_tube * 20)` and square side `L = B = sqrt A`, tube length and
occlusion, actual utilization `(L - occlusion) / L`, hopper diameters
`D_sludge = d_sludge + 2 * (h6 / tan 75°)` and the bottom-slope height
`h5 = (0.5 * B_pool - 0.5 * D_sludge) * tan 10.5°`.  Returns `none` when the
tube-length selection faults on a missing total height. -/
noncomputable def sedimentationForward (flow : ℚ) (totalHeight : Option ℚ) :
    Option SedResult :=
  match sedTubeLength flow totalHeight with
  | none => none
  | some lt =>
    let nTube := tubeUtilizationRule flow
    let qh : ℚ := flow / 24
    let aSed : ℚ := qh / (nTube * 20)
    let lPool : ℝ := Real.sqrt (aSed : ℝ)
    let bPool : ℝ := lPool
    let occ := tubeOcclusion lt
    let dS := sludgeHopperDiameterRule flow
    let h6 := sludgeHopperHeightRule flow
    let dSU : ℝ := (dS : ℝ) + 2 * ((h6 : ℝ) / Real.tan (radians 75))
    some
      { nTubeDesign := nTube
        aSedimentation := aSed
        lPool := lPool
        bPool := bPool
        lTube := lt
        lOcclusion := occ
        nTubeActual := (lPool - (occ : ℝ)) / lPool
        h3 := tubeLengthHeight lt
        dSludge := dS
        h6 := h6
        dSludgeUpper := dSU
        h5 := (0.5 * bPool - 0.5 * dSU) * Real.tan (radians 10.5) }

/-- Layer-count rule of the shared T1/T2 mixer-power path
(source lines 1403-1405): 2 layers when `h2 / D > 1.3`, else 1.  The
single-stage flocculation designer uses the same rule (source lines 632-633). -/
noncomputable def commonLayerCount (h2 D : ℝ) : ℝ :=
  if 13/10 < h2 / D then 2 else 1

/-- Layer count used by the T3 differential-speed power computation
(source line 1145): the constant 1 (`e = 1`), regardless of depth and
diameter. -/
def t3LayerCount : ℚ := 1

/-- T3 lower-paddle shaft power `N_lower` (source lines 1147-1149): the layer
factor in the drag formula is `t3LayerCount`, not the depth/diameter rule. -/
noncomputable def t3ShaftPowerLower (density wLower bLower rLower : ℝ) : ℝ :=
  0.5 * density * wLower ^ 3 * 2 * (t3LayerCount : ℝ) * bLower * rLower ^ 4 *
    Real.sin (radians 45) / (408 * 9.81)

/-- Entry of the flocculation adjustment record (`adjustment_log`): the source
appends one entry after the diameter auto-adjust loop (source line 607) and one
after the tip-speed auto-adjust loop (source line 680); nothing else is ever
appended by `calculate_single_stage_flocculation`. -/
inductive FlocAdjustment where
  | diameterAdjusted (initial final : ℚ)
  | speedAdjusted (initial final : ℚ)
deriving DecidableEq

/-- Flocculation basin volume `V1 = flow_rate * t1 / (24 * 3600)` (source line
460). -/
def floc_V1 (ss flow : ℚ) : ℚ := forwardVolume flow (flocRetentionTime ss)

/-- Flocculation square-footprint side `l = (V1 / 1.5) ** (1/3)` (source line
465); `w = l`. -/
noncomputable def floc_l (ss flow : ℚ) : ℝ := rectSide (floc_V1 ss flow)

/-- Flocculation equivalent diameter `D = sqrt(4 * l * w / π)` (source line
467). -/
noncomputable def floc_D (ss flow : ℚ) : ℝ := equivDiameter (floc_l ss flow) (floc_l ss flow)

/-- Flocculation effective depth `h2 = 1.5 * D` (source line 468). -/
noncomputable def floc_h2 (ss flow : ℚ) : ℝ := 1.5 * floc_D ss flow

/-- Peak flow `Q_max1 = q_max / (24 * 3600)` when `q_max` is supplied, else
`flow_rate / (24 * 3600)` (source lines 482-485). -/
def floc_Qmax1 (flow : ℚ) (qmax : Option ℚ) : ℚ := qmax.getD flow / (24 * 3600)

/-- Initial impeller diameter: ratio times `D`, rounded up to the nearest
centimetre, `math.ceil(d1 * 100) / 100` (source lines 573-582). -/
noncomputable def floc_d1_init (ss flow : ℚ) : ℚ :=
  (⌈(mixerDiameterRatio ss : ℝ) * floc_D ss flow * 100⌉ : ℚ) / 100

/-- Basin cross-section `S = l * w` (source line 586). -/
noncomputable def floc_S (ss flow : ℚ) : ℝ := floc_l ss flow * floc_l ss flow

/-- Swept-area ratio `S1 / S = (π d1² / 4) / S` (source lines 587-588). -/
noncomputable def floc_areaRatio (ss flow : ℚ) (d : ℚ) : ℝ :=
  Real.pi * (d : ℝ) ^ 2 / 4 / floc_S ss flow

/-- Diameter auto-adjust loop (source lines 592-609): while the area ratio is
not below 0.25 and fewer than 50 iterations have run, shrink the diameter by
5%.  State is `(d1, iterations)`. -/
noncomputable def dLoop (ratio : ℚ → ℝ) : ℕ → ℚ × ℕ → ℚ × ℕ
  | 0, s => s
  | fuel + 1, (d, k) =>
      if ratio d < 1/4 then (d, k) else dLoop ratio fuel (19/20 * d, k + 1)

/-- Post-adjustment impeller diameter and iteration count (source lines
592-609). -/
noncomputable def floc_d1_loop (ss flow : ℚ) : ℚ × ℕ :=
  dLoop (floc_areaRatio ss flow) 50 (floc_d1_init ss flow, 0)

/-- Final impeller diameter `d1`. -/
noncomputable def floc_d1 (ss flow : ℚ) : ℚ := (floc_d1_loop ss flow).1

/-- Final blade width `b` (source lines 611-621). -/
noncomputable def floc_b (ss flow : ℚ) : ℚ := bladeWidth (floc_d1 ss flow)

/-- Flocculation layer count (source lines 631-633): same `h2/D > 1.3` rule as
the T1/T2 path. -/
noncomputable def floc_e (ss flow : ℚ) : ℝ :=
  commonLayerCount (floc_h2 ss flow) (floc_D ss flow)

/-- Shaft power `N1` as a function of the current tip speed `v` (source lines
638-639 and 672-674): `0.5 · 1150 · (2v/d1)³ · 2 · e · b · (0.5·d1)⁴ · sin 45°
/ (408 · 9.81)`. -/
noncomputable def floc_N1v (ss flow : ℚ) (v : ℚ) : ℝ :=
  0.5 * 1150 * (2 * (v : ℝ) / (floc_d1 ss flow : ℝ)) ^ 3 * 2 * floc_e ss flow *
    (floc_b ss flow : ℝ) * (0.5 * (floc_d1 ss flow : ℝ)) ^ 4 * Real.sin (radians 45) /
    (408 * 9.81)

/-- Velocity gradient `G1` as a function of the current tip speed (source lines
651 and 676): `sqrt(1000 N1 / (0.00114 · Q_max1 · t1))`. -/
noncomputable def floc_G1v (ss flow : ℚ) (qmax : Option ℚ) (v : ℚ) : ℝ :=
  Real.sqrt (1000 * floc_N1v ss flow v /
    (0.00114 * (floc_Qmax1 flow qmax : ℝ) * (flocRetentionTime ss : ℝ)))

/-- Tip-speed auto-adjust loop (source lines 656-688): while the gradient is
outside `[lo, hi]` and fewer than 50 iterations have run, raise the tip speed
by 5% when below the band and lower it by 5% when above.  State is
`(v1, iterations)`. -/
noncomputable def gLoop (G : ℚ → ℝ) (lo hi : ℝ) : ℕ → ℚ × ℕ → ℚ × ℕ
  | 0, s => s
  | fuel + 1, (v, k) =>
      if lo ≤ G v ∧ G v ≤ hi then (v, k)
      else gLoop G lo hi fuel
        ((if G v < lo then 21/20 * v else if hi < G v then 19/20 * v else v), k + 1)

/-- Post-adjustment tip speed and iteration count; the flocculation gradient
band is 200-500 s⁻¹ (source lines 653, 661-667). -/
noncomputable def floc_v1_loop (ss flow : ℚ) (qmax : Option ℚ) : ℚ × ℕ :=
  gLoop (floc_G1v ss flow qmax) 200 500 50 (flocTipSpeed ss, 0)

/-- Final tip speed `v1`. -/
noncomputable def floc_v1 (ss flow : ℚ) (qmax : Option ℚ) : ℚ :=
  (floc_v1_loop ss flow qmax).1

/-- Final rotational speed `n1 = 60 v1 / (π d1)` (source lines 625, 670). -/
noncomputable def floc_n1 (ss flow : ℚ) (qmax : Option ℚ) : ℝ :=
  60 * (floc_v1 ss flow qmax : ℝ) / (Real.pi * (floc_d1 ss flow : ℝ))

/-- Adjustment record returned by the designer (source lines 593-609 and
656-688): one entry per loop that actually iterated. -/
noncomputable def floc_log (ss flow : ℚ) (qmax : Option ℚ) : List FlocAdjustment :=
  (if (floc_d1_loop ss flow).2 ≠ 0 then
    [FlocAdjustment.diameterAdjusted (floc_d1_init ss flow) (floc_d1 ss flow)] else []) ++
  (if (floc_v1_loop ss flow qmax).2 ≠ 0 then
    [FlocAdjustment.speedAdjusted (flocTipSpeed ss) (floc_v1 ss flow qmax)] else [])

/-- Draft-tube diameter `D_d = D * 1.1` (source line 714). -/
noncomputable def floc_D_d (ss flow : ℚ) : ℝ := floc_D ss flow * 1.1

/-- Draft-tube cross-section `S_d = π (D_d/2)²` (source line 718). -/
noncomputable def floc_S_d (ss flow : ℚ) : ℝ := Real.pi * (floc_D_d ss flow / 2) ^ 2

/-- Pool cross-section `S_pool = l * w` (source line 719). -/
noncomputable def floc_S_pool (ss flow : ℚ) : ℝ := floc_l ss flow * floc_l ss flow

/-- Paddle-layer spacing `l1_single = 1.5 * d1` (source line 727). -/
noncomputable def floc_l1_single (ss flow : ℚ) : ℝ := 1.5 * (floc_d1 ss flow : ℝ)

/-- Recirculation ratio (source lines 728-730):
`r = 1.05 (d1/D_d)^0.848 (b/D_d)^0.413 e^0.375 (l1_single/D_d)^0.762 (n1/60)
D_d³ / Q_max1`. -/
noncomputable def floc_r_guide (ss flow : ℚ) (qmax : Option ℚ) : ℝ :=
  1.05 * ((floc_d1 ss flow : ℝ) / floc_D_d ss flow) ^ (0.848 : ℝ) *
    ((floc_b ss flow : ℝ) / floc_D_d ss flow) ^ (0.413 : ℝ) *
    (floc_e ss flow) ^ (0.375 : ℝ) *
    (floc_l1_single ss flow / floc_D_d ss flow) ^ (0.762 : ℝ) *
    (floc_n1 ss flow qmax / 60) * (floc_D_d ss flow) ^ 3 / (floc_Qmax1 flow qmax : ℝ)

/-- Draft-tube height `h_guide_total = h2 / 2` (source line 735). -/
noncomputable def floc_h_guide_total (ss flow : ℚ) : ℝ := floc_h2 ss flow / 2

/-- Horn height `h_horn = 0.3` (source line 739). -/
noncomputable def floc_h_horn : ℝ := 0.3

/-- Guide-plate height `h_guide_plate = h2 / 2` (source line 744). -/
noncomputable def floc_h_guide_plate (ss flow : ℚ) : ℝ := floc_h2 ss flow / 2

/-- Internal design flow `Q_n = (r + 1) * Q_max1` (source line 757). -/
noncomputable def floc_Q_n (ss flow : ℚ) (qmax : Option ℚ) : ℝ :=
  (floc_r_guide ss flow qmax + 1) * (floc_Qmax1 flow qmax : ℝ)

/-- Internal tube velocity `v1_guide = Q_n / S_d` (source line 761). -/
noncomputable def floc_v1_guide (ss flow : ℚ) (qmax : Option ℚ) : ℝ :=
  floc_Q_n ss flow qmax / floc_S_d ss flow

/-- Raw top clearance `h2 - h_guide_total - h_guide_plate` (source line 765). -/
noncomputable def floc_h_guide_top_raw (ss flow : ℚ) : ℝ :=
  floc_h2 ss flow - floc_h_guide_total ss flow - floc_h_guide_plate ss flow

/-- Clamped top clearance (source lines 767-768): when the raw clearance is at
or below zero it is replaced by the safety floor 0.1 m. -/
noncomputable def floc_h_guide_top (ss flow : ℚ) : ℝ :=
  if floc_h_guide_top_raw ss flow ≤ 0 then 0.1 else floc_h_guide_top_raw ss flow

/-- Upper annulus velocity `v2 = Q_n / (h_guide_top * D_d * π)` (source line
770). -/
noncomputable def floc_v2_upper (ss flow : ℚ) (qmax : Option ℚ) : ℝ :=
  floc_Q_n ss flow qmax / (floc_h_guide_top ss flow * floc_D_d ss flow * Real.pi)

/-- Above-horn annulus velocity `v3 = Q_n / (S_pool - S_d)` (source line 775). -/
noncomputable def floc_v3_above_horn (ss flow : ℚ) (qmax : Option ℚ) : ℝ :=
  floc_Q_n ss flow qmax / (floc_S_pool ss flow - floc_S_d ss flow)

/-- Horn outer diameter `D_d1 = D_d + 2 * h_horn * cos 60°` (source line 779). -/
noncomputable def floc_D_d1 (ss flow : ℚ) : ℝ :=
  floc_D_d ss flow + 2 * floc_h_horn * Real.cos (radians 60)

/-- Horn cross-section `S_d1 = π (D_d1/2)²` (source line 780). -/
noncomputable def floc_S_d1 (ss flow : ℚ) : ℝ := Real.pi * (floc_D_d1 ss flow / 2) ^ 2

/-- At-horn annulus velocity `v4 = Q_n / (S_pool - S_d1)` (source line 781). -/
noncomputable def floc_v4_horn (ss flow : ℚ) (qmax : Option ℚ) : ℝ :=
  floc_Q_n ss flow qmax / (floc_S_pool ss flow - floc_S_d1 ss flow)

/-- Below-horn velocity `v5 = Q_n / (h_guide_plate * D_d1 * π)` (source line
787). -/
noncomputable def floc_v5_below (ss flow : ℚ) (qmax : Option ℚ) : ℝ :=
  floc_Q_n ss flow qmax / (floc_h_guide_plate ss flow * floc_D_d1 ss flow * Real.pi)

/-- Velocity spread checked by the code (source lines 791-792): the Python
`max(velocities) - min(velocities)` over the FOUR-element list
`[v2_upper, v3_above_horn, v4_horn, v5_below]`. -/
noncomputable def floc_velocity_diff (ss flow : ℚ) (qmax : Option ℚ) : ℝ :=
  max (max (floc_v2_upper ss flow qmax) (floc_v3_above_horn ss flow qmax))
      (max (floc_v4_horn ss flow qmax) (floc_v5_below ss flow qmax)) -
  min (min (floc_v2_upper ss flow qmax) (floc_v3_above_horn ss flow qmax))
      (min (floc_v4_horn ss flow qmax) (floc_v5_below ss flow qmax))

/-- Velocity consistency flag `velocity_check_ok = velocity_diff < 0.5`
(source line 794). -/
noncomputable def floc_velocity_check_ok (ss flow : ℚ) (qmax : Option ℚ) : Bool :=
  decide (floc_velocity_diff ss flow qmax < 0.5)

/-- Spread over all FIVE cross-section velocities, following the claim's
wording (`max − min` taken over `v1_guide, v2_upper, v3_above_horn, v4_horn,
v5_below`); the source itself omits `v1_guide` from the checked list. -/
noncomputable def spec_fiveVelocitySpread (ss flow : ℚ) (qmax : Option ℚ) : ℝ :=
  max (max (max (max (floc_v1_guide ss flow qmax) (floc_v2_upper ss flow qmax))
      (floc_v3_above_horn ss flow qmax)) (floc_v4_horn ss flow qmax))
      (floc_v5_below ss flow qmax) -
  min (min (min (min (floc_v1_guide ss flow qmax) (floc_v2_upper ss flow qmax))
      (floc_v3_above_horn ss flow qmax)) (floc_v4_horn ss flow qmax))
      (floc_v5_below ss flow qmax)

/-- Counterexample flow for the velocity-consistency claim: chosen so that the
basin side is exactly 0.1249 m. -/
def c5Flow : ℚ := 1440 * (1249/10000) ^ 3

/- ===================== Lemmas and claim theorems ===================== -/

lemma motorPowerOptions_sorted : motorPowerOptions.Sorted (· ≤ ·) := by
  simp only [motorPowerOptions, List.sorted_cons, List.mem_cons, List.mem_singleton,
    List.not_mem_nil, List.Sorted, List.pairwise_cons, List.Pairwise.nil]
  norm_num

lemma catalogScan_le_found {req : ℚ} :
    ∀ L : List ℚ, L.Sorted (· ≤ ·) → ∀ c ∈ L, req ≤ c →
      req ≤ catalogScan req L ∧ catalogScan req L ≤ c := by
  intro L
  induction L with
  | nil => intro _ c hc; simp at hc
  | cons a t ih =>
    intro hs c hc hrc
    rcases List.sorted_cons.mp hs with ⟨ha, hts⟩
    by_cases hra : req ≤ a
    · refine ⟨by simp [catalogScan, hra], ?_⟩
      rcases List.mem_cons.mp hc with rfl | hct
      · simp [catalogScan, hra]
      · simpa [catalogScan, hra] using ha c hct
    · rcases List.mem_cons.mp hc with rfl | hct
      · exact absurd hrc hra
      · simpa [catalogScan, hra] using ih hts c hct hrc

lemma catalogScan_mem_or (req : ℚ) :
    ∀ L : List ℚ, catalogScan req L ∈ L ∨ catalogScan req L = 22 := by
  intro L
  induction L with
  | nil => right; rfl
  | cons a t ih =>
    by_cases hra : req ≤ a
    · left; simp [catalogScan, hra]
    · rcases ih with h | h
      · left; simp only [catalogScan, if_neg hra]; exact List.mem_cons_of_mem a h
      · right; simpa [catalogScan, hra] using h

lemma catalogScan_exhausted {req : ℚ} :
    ∀ L : List ℚ, (∀ c ∈ L, c < req) → catalogScan req L = 22 := by
  intro L
  induction L with
  | nil => intro _; rfl
  | cons a t ih =>
    intro h
    have hna : ¬ req ≤ a := not_le.mpr (h a (List.mem_cons_self a t))
    simp only [catalogScan, if_neg hna]
    exact ih fun c hc => h c (List.mem_cons_of_mem a hc)

lemma selectMotorPower_mem (p : ℚ) : selectMotorPower p ∈ motorPowerOptions := by
  rcases catalogScan_mem_or (requiredPower p) motorPowerOptions with h | h
  · exact h
  · rw [selectMotorPower, h]; norm_num [motorPowerOptions]

/-- Claim C2: for every non-negative required power, the margined power is
`1.2 * p` below 2.5 kW and `p + 0.5` otherwise; the selected rating is a catalog
entry that is at or above the margined power and at or below every qualifying
catalog entry; when no entry qualifies the catalog maximum 22 is returned; and
`select_motor_power 2.0 = 3`. -/
theorem motor_selector_spec (p : ℚ) (_hp : 0 ≤ p) :
    (p < 5/2 → requiredPower p = p * (6/5)) ∧
    (5/2 ≤ p → requiredPower p = p + 1/2) ∧
    selectMotorPower p ∈ motorPowerOptions ∧
    (∀ c ∈ motorPowerOptions, requiredPower p ≤ c →
      requiredPower p ≤ selectMotorPower p ∧ selectMotorPower p ≤ c) ∧
    ((∀ c ∈ motorPowerOptions, c < requiredPower p) → selectMotorPower p = 22) ∧
    selectMotorPower 2 = 3 := by
  refine ⟨?_, ?_, selectMotorPower_mem p, ?_, ?_, ?_⟩
  · intro h; simp [requiredPower, h]
  · intro h; simp [requiredPower, not_lt.mpr h]
  · intro c hc hrc
    exact catalogScan_le_found motorPowerOptions motorPowerOptions_sorted c hc hrc
  · intro hall
    exact catalogScan_exhausted motorPowerOptions hall
  · norm_num [selectMotorPower, requiredPower, motorPowerOptions, catalogScan]

/-- Witness for claim C2 at the concrete power 2.0 kW. -/
theorem motor_selector_spec_witness :
    (0:ℚ) ≤ 2 ∧
      (((2:ℚ) < 5/2 → requiredPower 2 = 2 * (6/5)) ∧
       (5/2 ≤ (2:ℚ) → requiredPower 2 = 2 + 1/2) ∧
       selectMotorPower 2 ∈ motorPowerOptions ∧
       (∀ c ∈ motorPowerOptions, requiredPower 2 ≤ c →
         requiredPower 2 ≤ selectMotorPower 2 ∧ selectMotorPower 2 ≤ c) ∧
       ((∀ c ∈ motorPowerOptions, c < requiredPower 2) → selectMotorPower 2 = 22) ∧
       selectMotorPower 2 = 3) :=
  ⟨by norm_num, motor_selector_spec 2 (by norm_num)⟩

/-- Claim C8 counterexample: the Motor Selector is not idempotent.  At the
required power 0.1 kW the selected rating is 0.37 kW, but re-running the
selector on 0.37 kW yields 0.55 kW. -/
theorem motor_selector_not_idempotent :
    selectMotorPower (1/10) = 37/100 ∧
    selectMotorPower (selectMotorPower (1/10)) = 55/100 ∧
    selectMotorPower (selectMotorPower (1/10)) ≠ selectMotorPower (1/10) := by
  norm_num [selectMotorPower, requiredPower, motorPowerOptions, catalogScan]

/-- Claim C8 (amended): re-running the Motor Selector on its own output returns
a rating at least as large as the original selection (but possibly larger). -/
theorem motor_selector_reselect_ge (p : ℚ) :
    selectMotorPower p ≤ selectMotorPower (selectMotorPower p) := by
  have hmem := selectMotorPower_mem p
  have hstep : ∀ c ∈ motorPowerOptions, c ≤ selectMotorPower c := by
    intro c hc
    fin_cases hc <;>
      norm_num [selectMotorPower, requiredPower, motorPowerOptions, catalogScan]
  exact hstep _ hmem

/-- Claim C3: the T3 retention-time rule violates the documented 180-200 s band.
At SS = 125 mg/L the code computes `180 + (125 - 50) * 20 / 50 = 210 s`, above
the 200 s ceiling that both the specification and the code's own comments state;
Scenario B (SS = 160 → 200 s) itself holds. -/
theorem t3_retention_exceeds_band :
    t3RetentionTime 125 = 210 ∧
    ¬ t3RetentionTime 125 ≤ 200 ∧
    t3RetentionTime 160 = 200 := by
  norm_num [t3RetentionTime]

lemma cuberoot_cube {x : ℝ} (hx : 0 ≤ x) : (x ^ ((1 : ℝ) / 3)) ^ (3 : ℕ) = x := by
  rw [← Real.rpow_natCast (x ^ ((1 : ℝ) / 3)) 3, ← Real.rpow_mul hx]
  norm_num

lemma equivDiameter_self {l : ℝ} (hl : 0 ≤ l) :
    equivDiameter l l = 2 * l / Real.sqrt Real.pi := by
  unfold equivDiameter
  rw [show 4 * l * l / Real.pi = (2 * l) ^ 2 / Real.pi by ring,
    Real.sqrt_div (sq_nonneg (2 * l)), Real.sqrt_sq (by linarith)]

lemma t1RetentionTime_pos (ss : ℚ) : 0 < t1RetentionTime ss := by
  unfold t1RetentionTime; split_ifs <;> norm_num

lemma t2RetentionTime_pos (ss : ℚ) : 0 < t2RetentionTime ss := by
  unfold t2RetentionTime; split_ifs <;> norm_num

lemma t3RetentionTime_pos (ss : ℚ) : 0 < t3RetentionTime ss := by
  unfold t3RetentionTime
  split_ifs with h1 h2 h3 <;> try norm_num
  · nlinarith
  · nlinarith

lemma flocRetentionTime_pos (ss : ℚ) : 0 < flocRetentionTime ss := by
  unfold flocRetentionTime; split_ifs <;> norm_num

lemma forwardVolume_pos {flow t : ℚ} (hf : 0 < flow) (ht : 0 < t) :
    0 < forwardVolume flow t := by
  unfold forwardVolume; positivity

lemma rectSide_pos {V : ℚ} (hV : 0 < V) : 0 < rectSide V := by
  unfold rectSide
  have hVR : (0:ℝ) < (V:ℝ) := by exact_mod_cast hV
  exact Real.rpow_pos_of_pos (div_pos hVR (by norm_num)) _

lemma circularDiameter_pos {V : ℚ} (hV : 0 < V) : 0 < circularDiameter V := by
  unfold circularDiameter
  have hVR : (0:ℝ) < (V:ℝ) := by exact_mod_cast hV
  exact Real.rpow_pos_of_pos (div_pos hVR (by norm_num)) _

lemma equivDiameter_pos {l w : ℝ} (hl : 0 < l) (hw : 0 < w) :
    0 < equivDiameter l w := by
  unfold equivDiameter
  have hpi := Real.pi_pos
  exact Real.sqrt_pos.mpr (by positivity)

lemma roundTripCircular_eq {flow t : ℚ} (hf : 0 < flow) (ht : 0 ≤ t) :
    roundTripCircular flow t = Real.pi / 4 * (t : ℝ) := by
  have hVR : (0 : ℝ) ≤ (forwardVolume flow t : ℝ) := by
    have hq : (0:ℚ) ≤ forwardVolume flow t := by unfold forwardVolume; positivity
    exact_mod_cast hq
  have hV : (0 : ℝ) ≤ (forwardVolume flow t : ℝ) / 1.5 := by positivity
  have hfR : (0 : ℝ) < (flow : ℝ) := by exact_mod_cast hf
  have hfne : ((flow : ℝ)) ≠ 0 := ne_of_gt hfR
  have hVval : (forwardVolume flow t : ℝ) = (flow : ℝ) * (t : ℝ) / (24 * 3600) := by
    unfold forwardVolume; push_cast; ring
  unfold roundTripCircular reverseRetentionTime reverseCircularVolume circularDiameter
  calc Real.pi * (((forwardVolume flow t : ℝ) / 1.5) ^ ((1 : ℝ) / 3)) ^ 2 / 4 *
        (1.5 * ((forwardVolume flow t : ℝ) / 1.5) ^ ((1 : ℝ) / 3)) * 24 * 3600 / (flow : ℝ)
      = Real.pi / 4 * 1.5 * ((((forwardVolume flow t : ℝ) / 1.5) ^ ((1 : ℝ) / 3)) ^ (3:ℕ)) *
          24 * 3600 / (flow : ℝ) := by ring
    _ = Real.pi / 4 * 1.5 * ((forwardVolume flow t : ℝ) / 1.5) * 24 * 3600 / (flow : ℝ) := by
          rw [cuberoot_cube hV]
    _ = Real.pi / 4 * (t : ℝ) := by rw [hVval]; field_simp; ring

lemma roundTripRect_eq {flow t : ℚ} (hf : 0 < flow) (ht : 0 ≤ t) :
    roundTripRect flow t = 2 / Real.sqrt Real.pi * (t : ℝ) := by
  have hVR : (0 : ℝ) ≤ (forwardVolume flow t : ℝ) := by
    have hq : (0:ℚ) ≤ forwardVolume flow t := by unfold forwardVolume; positivity
    exact_mod_cast hq
  have hV : (0 : ℝ) ≤ (forwardVolume flow t : ℝ) / 1.5 := by positivity
  have hl : 0 ≤ rectSide (forwardVolume flow t) := by
    unfold rectSide; exact Real.rpow_nonneg hV _
  have hcube : (rectSide (forwardVolume flow t)) ^ (3 : ℕ) =
      (forwardVolume flow t : ℝ) / 1.5 := by
    unfold rectSide; exact cuberoot_cube hV
  have hfR : (0 : ℝ) < (flow : ℝ) := by exact_mod_cast hf
  have hfne : ((flow : ℝ)) ≠ 0 := ne_of_gt hfR
  have hsp : Real.sqrt Real.pi ≠ 0 := by
    have := Real.pi_pos
    positivity
  have hVval : (forwardVolume flow t : ℝ) = (flow : ℝ) * (t : ℝ) / (24 * 3600) := by
    unfold forwardVolume; push_cast; ring
  unfold roundTripRect reverseRetentionTime reverseRectVolume
  rw [equivDiameter_self hl]
  calc rectSide (forwardVolume flow t) * rectSide (forwardVolume flow t) *
        (1.5 * (2 * rectSide (forwardVolume flow t) / Real.sqrt Real.pi)) * 24 * 3600 / (flow : ℝ)
      = 3 * ((rectSide (forwardVolume flow t)) ^ (3:ℕ)) / Real.sqrt Real.pi * 24 * 3600 /
          (flow : ℝ) := by ring
    _ = 3 * ((forwardVolume flow t : ℝ) / 1.5) / Real.sqrt Real.pi * 24 * 3600 / (flow : ℝ) := by
          rw [hcube]
    _ = 2 / Real.sqrt Real.pi * (t : ℝ) := by rw [hVval]; field_simp; ring

/-- Claim C1 counterexample: the forward/reverse round trip does not reproduce
the retention time.  For the T1 family, circular shape, SS = 160 mg/L and flow
86400 m³/d, forward mode gives t1 = 90 s, but feeding the forward-mode diameter
and depth into reverse mode returns `(π/4)·90 ≈ 70.7 s`, more than 19 s away —
far outside any floating-point tolerance. -/
theorem geometry_roundtrip_fails :
    t1RetentionTime 160 = 90 ∧
    |roundTripCircular 86400 (t1RetentionTime 160) - ((t1RetentionTime 160 : ℚ) : ℝ)| > 19 := by
  have h160 : t1RetentionTime 160 = 90 := by norm_num [t1RetentionTime]
  refine ⟨h160, ?_⟩
  rw [h160, roundTripCircular_eq (by norm_num) (by norm_num)]
  have hpi4 : Real.pi < 3.15 := Real.pi_lt_d2
  have hpi3 : 3.141592 < Real.pi := Real.pi_gt_d6
  rw [abs_sub_comm, abs_of_pos (by push_cast; nlinarith)]
  push_cast
  nlinarith

/-- Claim C1 (amended): for each basin family (T1, T2, T3) and each shape, the
round trip scales the forward retention time by a constant shape factor instead
of reproducing it: reverse mode returns `(π/4)·t1` for circular basins and
`(2/√π)·t1` for rectangular basins. -/
theorem geometry_roundtrip_scales (ss flow : ℚ) (hf : 0 < flow) :
    (roundTripCircular flow (t1RetentionTime ss) = Real.pi / 4 * (t1RetentionTime ss : ℚ) ∧
     roundTripRect flow (t1RetentionTime ss) = 2 / Real.sqrt Real.pi * (t1RetentionTime ss : ℚ)) ∧
    (roundTripCircular flow (t2RetentionTime ss) = Real.pi / 4 * (t2RetentionTime ss : ℚ) ∧
     roundTripRect flow (t2RetentionTime ss) = 2 / Real.sqrt Real.pi * (t2RetentionTime ss : ℚ)) ∧
    (roundTripCircular flow (t3RetentionTime ss) = Real.pi / 4 * (t3RetentionTime ss : ℚ) ∧
     roundTripRect flow (t3RetentionTime ss) = 2 / Real.sqrt Real.pi * (t3RetentionTime ss : ℚ)) :=
  ⟨⟨roundTripCircular_eq hf (t1RetentionTime_pos ss).le,
    roundTripRect_eq hf (t1RetentionTime_pos ss).le⟩,
   ⟨roundTripCircular_eq hf (t2RetentionTime_pos ss).le,
    roundTripRect_eq hf (t2RetentionTime_pos ss).le⟩,
   ⟨roundTripCircular_eq hf (t3RetentionTime_pos ss).le,
    roundTripRect_eq hf (t3RetentionTime_pos ss).le⟩⟩

/-- Witness for the amended claim C1 at SS = 80 mg/L, flow 1000 m³/d. -/
theorem geometry_roundtrip_scales_witness :
    (0:ℚ) < 1000 ∧
      ((roundTripCircular 1000 (t1RetentionTime 80) = Real.pi / 4 * (t1RetentionTime 80 : ℚ) ∧
        roundTripRect 1000 (t1RetentionTime 80) = 2 / Real.sqrt Real.pi * (t1RetentionTime 80 : ℚ)) ∧
       (roundTripCircular 1000 (t2RetentionTime 80) = Real.pi / 4 * (t2RetentionTime 80 : ℚ) ∧
        roundTripRect 1000 (t2RetentionTime 80) = 2 / Real.sqrt Real.pi * (t2RetentionTime 80 : ℚ)) ∧
       (roundTripCircular 1000 (t3RetentionTime 80) = Real.pi / 4 * (t3RetentionTime 80 : ℚ) ∧
        roundTripRect 1000 (t3RetentionTime 80) = 2 / Real.sqrt Real.pi * (t3RetentionTime 80 : ℚ))) :=
  ⟨by norm_num, geometry_roundtrip_scales 80 1000 (by norm_num)⟩

/-- Claim C4: the tube-length branches are inverted relative to the claim and
the code's own comments.  When no total height is supplied the code faults (it
compares `None < 2.9`, modelled as `none`); when a total height IS supplied the
code ignores it and brackets the flow estimate `2 + flow/5000`: at flow
20000 m³/d with supplied height 2.5 m the estimate is 6, so the code selects
1.5 m where the claim requires bracketing 2.5 m (which would give 0.8 m). -/
theorem sedimentation_tube_length_branches_swapped :
    sedTubeLength 1000 none = none ∧
    sedimentationForward 1000 none = none ∧
    sedTubeLength 20000 (some (5/2)) = some (3/2) ∧
    (sedimentationForward 20000 (some (5/2))).elim False (fun r => r.lTube = 3/2) := by
  have h1 : sedTubeLength 1000 none = none := rfl
  have h2 : sedTubeLength 20000 (some (5/2)) = some (3/2) := by
    norm_num [sedTubeLength]
  refine ⟨h1, ?_, h2, ?_⟩
  · simp [sedimentationForward, h1]
  · simp [sedimentationForward, h2]

/-- Claim C9 counterexample: not every derived length is positive.  At the valid
positive input flow = 40 m³/d (forward mode, supplied total height 4 m) the pool
side is `sqrt(25/246) ≈ 0.319 m`, smaller than the hopper upper diameter
`0.34 + 0.6/tan 75° ≈ 0.50 m`, so the bottom-slope height
`h5 = (0.5·B_pool − 0.5·D_sludge)·tan 10.5°` is strictly negative. -/
theorem sedimentation_slope_height_negative :
    (sedimentationForward 40 (some 4)).elim False (fun r => r.h5 < 0) := by
  have hsel : sedTubeLength 40 (some 4) = some (4/5) := by
    norm_num [sedTubeLength]
  simp only [sedimentationForward, hsel, Option.elim_some]
  have htan75 : 0 < Real.tan (radians 75) := by
    unfold radians
    apply Real.tan_pos_of_pos_of_lt_pi_div_two
    · positivity
    · rw [div_lt_iff₀ (by norm_num : (0:ℝ) < 180)] at *
      nlinarith [Real.pi_pos]
  have htan105 : 0 < Real.tan (radians 10.5) := by
    unfold radians
    apply Real.tan_pos_of_pos_of_lt_pi_div_two
    · positivity
    · rw [div_lt_iff₀ (by norm_num : (0:ℝ) < 180)] at *
      nlinarith [Real.pi_pos]
  have hB : Real.sqrt ((40 / 24 / (tubeUtilizationRule 40 * 20) : ℚ) : ℝ) < 17/50 := by
    rw [show (40 / 24 / (tubeUtilizationRule 40 * 20) : ℚ) = 25/246 by
      norm_num [tubeUtilizationRule]]
    rw [Real.sqrt_lt' (by norm_num)]
    push_cast
    norm_num
  have hDS : (17/50 : ℝ) <
      (sludgeHopperDiameterRule 40 : ℝ) +
        2 * ((sludgeHopperHeightRule 40 : ℝ) / Real.tan (radians 75)) := by
    rw [show (sludgeHopperDiameterRule 40 : ℚ) = 17/50 by norm_num [sludgeHopperDiameterRule],
        show (sludgeHopperHeightRule 40 : ℚ) = 3/10 by norm_num [sludgeHopperHeightRule]]
    push_cast
    have : 0 < (3/10 : ℝ) / Real.tan (radians 75) := by positivity
    linarith
  apply mul_neg_of_neg_of_pos _ htan105
  linarith

lemma forward_depth_ratio (_ss flow : ℚ) (hf : 0 < flow) {t : ℚ} (ht : 0 < t) :
    1.5 * equivDiameter (rectSide (forwardVolume flow t)) (rectSide (forwardVolume flow t)) /
      equivDiameter (rectSide (forwardVolume flow t)) (rectSide (forwardVolume flow t)) = 1.5 := by
  have hl := rectSide_pos (forwardVolume_pos hf ht)
  have hD := equivDiameter_pos hl hl
  field_simp

/-- Claim C6 counterexample: the layer-count rule does not cover T3.  At the
concrete T3 forward input SS = 80 mg/L, flow = 1000 m³/d (rectangular shape) the
depth/diameter ratio is exactly 1.5 > 1.3, so the claimed rule yields 2 layers,
but the T3 power computation uses the constant layer count 1. -/
theorem t3_layer_count_deviates :
    commonLayerCount
        (1.5 * equivDiameter (rectSide (forwardVolume 1000 (t3RetentionTime 80)))
          (rectSide (forwardVolume 1000 (t3RetentionTime 80))))
        (equivDiameter (rectSide (forwardVolume 1000 (t3RetentionTime 80)))
          (rectSide (forwardVolume 1000 (t3RetentionTime 80)))) = 2 ∧
    (t3LayerCount : ℝ) = 1 ∧
    (t3LayerCount : ℝ) ≠ 2 := by
  refine ⟨?_, by norm_num [t3LayerCount], by norm_num [t3LayerCount]⟩
  have hratio := forward_depth_ratio 80 1000 (by norm_num) (t3RetentionTime_pos 80)
  rw [commonLayerCount, hratio]
  norm_num

/-- Claim C6 (amended): the T1/T2 (and flocculation) mixer-power path uses
2 layers exactly when `h2 / D > 1.3` and 1 layer otherwise — in forward mode the
ratio is exactly 1.5, so that path always uses 2 layers — while the T3
differential-speed computation always uses the constant layer count 1 inside its
shaft-power formula. -/
theorem layer_count_rule (ss flow : ℚ) (hf : 0 < flow) :
    (∀ h2 D : ℝ, (commonLayerCount h2 D = 2 ↔ 13/10 < h2 / D) ∧
      (commonLayerCount h2 D = 1 ↔ ¬ 13/10 < h2 / D)) ∧
    commonLayerCount
        (1.5 * equivDiameter (rectSide (forwardVolume flow (t1RetentionTime ss)))
          (rectSide (forwardVolume flow (t1RetentionTime ss))))
        (equivDiameter (rectSide (forwardVolume flow (t1RetentionTime ss)))
          (rectSide (forwardVolume flow (t1RetentionTime ss)))) = 2 ∧
    (t3LayerCount : ℝ) = 1 ∧
    (∀ density wLower bLower rLower : ℝ,
      t3ShaftPowerLower density wLower bLower rLower =
        0.5 * density * wLower ^ 3 * 2 * 1 * bLower * rLower ^ 4 *
          Real.sin (radians 45) / (408 * 9.81)) := by
  refine ⟨?_, ?_, by norm_num [t3LayerCount], ?_⟩
  · intro h2 D
    constructor
    · unfold commonLayerCount
      split_ifs with h
      · simp [h]
      · simp only [h, iff_false]
        norm_num
    · unfold commonLayerCount
      split_ifs with h
      · simp only [h, not_true, iff_false]
        norm_num
      · simp [h]
  · have hratio := forward_depth_ratio ss flow hf (t1RetentionTime_pos ss)
    rw [commonLayerCount, hratio]
    norm_num
  · intro density wLower bLower rLower
    unfold t3ShaftPowerLower t3LayerCount
    norm_num

/-- Witness for the amended claim C6 at SS = 80 mg/L, flow = 1000 m³/d. -/
theorem layer_count_rule_witness :
    (0:ℚ) < 1000 ∧
      ((∀ h2 D : ℝ, (commonLayerCount h2 D = 2 ↔ 13/10 < h2 / D) ∧
        (commonLayerCount h2 D = 1 ↔ ¬ 13/10 < h2 / D)) ∧
       commonLayerCount
           (1.5 * equivDiameter (rectSide (forwardVolume 1000 (t1RetentionTime 80)))
             (rectSide (forwardVolume 1000 (t1RetentionTime 80))))
           (equivDiameter (rectSide (forwardVolume 1000 (t1RetentionTime 80)))
             (rectSide (forwardVolume 1000 (t1RetentionTime 80)))) = 2 ∧
       (t3LayerCount : ℝ) = 1 ∧
       (∀ density wLower bLower rLower : ℝ,
         t3ShaftPowerLower density wLower bLower rLower =
           0.5 * density * wLower ^ 3 * 2 * 1 * bLower * rLower ^ 4 *
             Real.sin (radians 45) / (408 * 9.81))) :=
  ⟨by norm_num, layer_count_rule 80 1000 (by norm_num)⟩

/-- Claim C9 (amended): for every positive flow, the retention times of all four
basin families, the forward-mode volumes, the square-footprint side, the
equivalent and circular diameters and the effective depth are strictly
positive.  The claim's blanket positivity of every derived length is false:
`h5_sedimentation` is negative at flow = 40 m³/d (see the counterexample), so
the bottom-slope height and the paddle distance-to-surface are excluded from
the guarantee. -/
theorem forward_design_positive (ss flow : ℚ) (hf : 0 < flow) :
    0 < t1RetentionTime ss ∧ 0 < t2RetentionTime ss ∧ 0 < t3RetentionTime ss ∧
    0 < flocRetentionTime ss ∧
    0 < forwardVolume flow (t1RetentionTime ss) ∧
    0 < forwardVolume flow (t2RetentionTime ss) ∧
    0 < forwardVolume flow (t3RetentionTime ss) ∧
    0 < rectSide (forwardVolume flow (t1RetentionTime ss)) ∧
    0 < equivDiameter (rectSide (forwardVolume flow (t1RetentionTime ss)))
          (rectSide (forwardVolume flow (t1RetentionTime ss))) ∧
    0 < 1.5 * equivDiameter (rectSide (forwardVolume flow (t1RetentionTime ss)))
          (rectSide (forwardVolume flow (t1RetentionTime ss))) ∧
    0 < circularDiameter (forwardVolume flow (t1RetentionTime ss)) := by
  have h1 := t1RetentionTime_pos ss
  have h2 := t2RetentionTime_pos ss
  have h3 := t3RetentionTime_pos ss
  have hl := rectSide_pos (forwardVolume_pos hf h1)
  have hD := equivDiameter_pos hl hl
  exact ⟨h1, h2, h3, flocRetentionTime_pos ss,
    forwardVolume_pos hf h1, forwardVolume_pos hf h2, forwardVolume_pos hf h3,
    hl, hD, by linarith, circularDiameter_pos (forwardVolume_pos hf h1)⟩

/-- Witness for the amended claim C9 at SS = 80 mg/L, flow = 1000 m³/d. -/
theorem forward_design_positive_witness :
    (0:ℚ) < 1000 ∧
      (0 < t1RetentionTime 80 ∧ 0 < t2RetentionTime 80 ∧ 0 < t3RetentionTime 80 ∧
       0 < flocRetentionTime 80 ∧
       0 < forwardVolume 1000 (t1RetentionTime 80) ∧
       0 < forwardVolume 1000 (t2RetentionTime 80) ∧
       0 < forwardVolume 1000 (t3RetentionTime 80) ∧
       0 < rectSide (forwardVolume 1000 (t1RetentionTime 80)) ∧
       0 < equivDiameter (rectSide (forwardVolume 1000 (t1RetentionTime 80)))
             (rectSide (forwardVolume 1000 (t1RetentionTime 80))) ∧
       0 < 1.5 * equivDiameter (rectSide (forwardVolume 1000 (t1RetentionTime 80)))
             (rectSide (forwardVolume 1000 (t1RetentionTime 80))) ∧
       0 < circularDiameter (forwardVolume 1000 (t1RetentionTime 80))) :=
  ⟨by norm_num, forward_design_positive 80 1000 (by norm_num)⟩

lemma dLoop_stop {ratio : ℚ → ℝ} {d : ℚ} {k : ℕ} (h : ratio d < 1/4) :
    ∀ fuel, dLoop ratio fuel (d, k) = (d, k) := by
  intro fuel
  cases fuel with
  | zero => rfl
  | succ n => simp only [dLoop, if_pos h]

lemma gLoop_stop {G : ℚ → ℝ} {lo hi : ℝ} {v : ℚ} {k : ℕ} (h : lo ≤ G v ∧ G v ≤ hi) :
    ∀ fuel, gLoop G lo hi fuel (v, k) = (v, k) := by
  intro fuel
  cases fuel with
  | zero => rfl
  | succ n => simp only [gLoop, if_pos h]

lemma gLoop_all_above {G : ℚ → ℝ} {lo hi : ℝ} (hlh : lo ≤ hi) :
    ∀ (fuel : ℕ) (v : ℚ) (k : ℕ), (∀ j : ℕ, j < fuel → hi < G ((19/20) ^ j * v)) →
      gLoop G lo hi fuel (v, k) = ((19/20) ^ fuel * v, k + fuel) := by
  intro fuel
  induction fuel with
  | zero => intro v k _; simp [gLoop]
  | succ n ih =>
    intro v k h
    have h0 : hi < G v := by simpa using h 0 (Nat.succ_pos n)
    have hnot : ¬ (lo ≤ G v ∧ G v ≤ hi) := fun hc => absurd h0 (not_lt.mpr hc.2)
    have hn1 : ¬ G v < lo := not_lt.mpr (le_trans hlh h0.le)
    have hrec : ∀ j : ℕ, j < n → hi < G ((19/20) ^ j * (19/20 * v)) := by
      intro j hj
      have := h (j + 1) (by omega)
      rwa [show ((19:ℚ)/20) ^ (j+1) * v = (19/20) ^ j * (19/20 * v) by ring] at this
    simp only [gLoop, if_neg hnot, if_neg hn1, if_pos h0]
    rw [ih (19/20 * v) (k + 1) hrec]
    refine Prod.ext ?_ ?_
    · show ((19:ℚ)/20) ^ n * (19/20 * v) = (19/20) ^ (n + 1) * v
      ring
    · show k + 1 + n = k + (n + 1)
      omega

lemma sqrt_pi_gt : 1.772453 < Real.sqrt Real.pi := by
  rw [show (1.772453:ℝ) = Real.sqrt (1.772453 ^ 2) by
    rw [Real.sqrt_sq (by norm_num)]]
  apply Real.sqrt_lt_sqrt (by positivity)
  nlinarith [Real.pi_gt_d6]

lemma sqrt_pi_lt : Real.sqrt Real.pi < 1.772454 := by
  rw [show (1.772454:ℝ) = Real.sqrt (1.772454 ^ 2) by
    rw [Real.sqrt_sq (by norm_num)]]
  apply Real.sqrt_lt_sqrt Real.pi_pos.le
  nlinarith [Real.pi_lt_d6]

lemma sqrt_two_gt : 1.414 < Real.sqrt 2 := by
  rw [show (1.414:ℝ) = Real.sqrt (1.414 ^ 2) by rw [Real.sqrt_sq (by norm_num)]]
  apply Real.sqrt_lt_sqrt (by positivity)
  norm_num

lemma sqrt_two_lt : Real.sqrt 2 < 1.415 := by
  rw [show (1.415:ℝ) = Real.sqrt (1.415 ^ 2) by rw [Real.sqrt_sq (by norm_num)]]
  apply Real.sqrt_lt_sqrt (by norm_num)
  norm_num

lemma sin_radians_45 : Real.sin (radians 45) = Real.sqrt 2 / 2 := by
  unfold radians
  rw [show (45:ℝ) * Real.pi / 180 = Real.pi / 4 by ring]
  exact Real.sin_pi_div_four

lemma cos_radians_60 : Real.cos (radians 60) = 1 / 2 := by
  unfold radians
  rw [show (60:ℝ) * Real.pi / 180 = Real.pi / 3 by ring]
  exact Real.cos_pi_div_three

lemma floc_top_raw_zero (ss flow : ℚ) : floc_h_guide_top_raw ss flow = 0 := by
  unfold floc_h_guide_top_raw floc_h_guide_total floc_h_guide_plate
  ring

lemma floc_top_floor (ss flow : ℚ) : floc_h_guide_top ss flow = 0.1 := by
  unfold floc_h_guide_top
  rw [floc_top_raw_zero]
  norm_num

/-- Claim C10: because `h_guide_total = h2/2` and `h_guide_plate = h2/2`, the
raw draft-tube top clearance is exactly 0 on every invocation, the 0.1 m safety
floor is therefore applied on every run (not only in edge cases), and the upper
annulus velocity always equals `Q_n / (0.1 · π · D_d)`. -/
theorem guide_clearance_always_floored (ss flow : ℚ) (qmax : Option ℚ) :
    floc_h_guide_total ss flow = floc_h2 ss flow / 2 ∧
    floc_h_guide_plate ss flow = floc_h2 ss flow / 2 ∧
    floc_h_guide_top_raw ss flow = 0 ∧
    floc_h_guide_top ss flow = 0.1 ∧
    floc_v2_upper ss flow qmax =
      floc_Q_n ss flow qmax / (0.1 * Real.pi * floc_D_d ss flow) := by
  refine ⟨rfl, rfl, floc_top_raw_zero ss flow, floc_top_floor ss flow, ?_⟩
  unfold floc_v2_upper
  rw [floc_top_floor]
  congr 1
  ring

lemma floc_l_c7 : floc_l 40 1440 = 1 := by
  have h1 : flocRetentionTime 40 = 90 := by norm_num [flocRetentionTime]
  unfold floc_l floc_V1
  rw [h1, show forwardVolume 1440 90 = 3/2 by norm_num [forwardVolume]]
  unfold rectSide
  rw [show ((3/2 : ℚ) : ℝ) / 1.5 = 1 by push_cast; norm_num]
  exact Real.one_rpow _

lemma floc_D_c7 : floc_D 40 1440 = 2 / Real.sqrt Real.pi := by
  unfold floc_D
  rw [floc_l_c7, equivDiameter_self (by norm_num : (0:ℝ) ≤ 1)]
  norm_num

lemma floc_D_c7_pos : 0 < floc_D 40 1440 := by
  rw [floc_D_c7]
  have h := Real.sqrt_pos.mpr Real.pi_pos
  positivity

lemma floc_d1_init_c7 : floc_d1_init 40 1440 = 19/50 := by
  unfold floc_d1_init
  rw [floc_D_c7, show (mixerDiameterRatio 40 : ℚ) = 1/3 by norm_num [mixerDiameterRatio]]
  have hsl := sqrt_pi_gt
  have hsh := sqrt_pi_lt
  have hsp : (0:ℝ) < Real.sqrt Real.pi := by linarith
  have he : ((1/3 : ℚ) : ℝ) * (2 / Real.sqrt Real.pi) * 100 =
      200 / (3 * Real.sqrt Real.pi) := by
    push_cast
    field_simp
    ring
  have hceil : ⌈((1/3 : ℚ) : ℝ) * (2 / Real.sqrt Real.pi) * 100⌉ = (38 : ℤ) := by
    rw [Int.ceil_eq_iff]
    rw [he]
    constructor
    · rw [lt_div_iff₀ (by positivity)]
      push_cast
      nlinarith
    · rw [div_le_iff₀ (by positivity)]
      push_cast
      nlinarith
  rw [hceil]
  norm_num

lemma floc_areaRatio_c7 : floc_areaRatio 40 1440 (19/50) < 1/4 := by
  unfold floc_areaRatio floc_S
  rw [floc_l_c7]
  have := Real.pi_lt_d2
  push_cast
  nlinarith

lemma floc_d1_c7 : floc_d1 40 1440 = 19/50 := by
  unfold floc_d1 floc_d1_loop
  rw [floc_d1_init_c7, dLoop_stop floc_areaRatio_c7]

lemma floc_d1_loop_iters_c7 : (floc_d1_loop 40 1440).2 = 0 := by
  unfold floc_d1_loop
  rw [floc_d1_init_c7, dLoop_stop floc_areaRatio_c7]

lemma floc_b_c7 : floc_b 40 1440 = 1/10 := by
  unfold floc_b
  rw [floc_d1_c7]
  norm_num [bladeWidth]

lemma floc_e_c7 : floc_e 40 1440 = 2 := by
  unfold floc_e floc_h2 commonLayerCount
  have hD := floc_D_c7_pos
  rw [if_pos]
  rw [show 1.5 * floc_D 40 1440 / floc_D 40 1440 = 1.5 by field_simp]
  norm_num

lemma floc_Qmax1_c7 : floc_Qmax1 1440 none = 1/60 := by
  norm_num [floc_Qmax1, Option.getD]

lemma floc_G_c7 : 200 ≤ floc_G1v 40 1440 none (16/5) ∧
    floc_G1v 40 1440 none (16/5) ≤ 500 := by
  unfold floc_G1v floc_N1v
  rw [floc_d1_c7, floc_b_c7, floc_e_c7, sin_radians_45, floc_Qmax1_c7,
    show flocRetentionTime 40 = 90 by norm_num [flocRetentionTime]]
  have h2g := sqrt_two_gt
  have h2l := sqrt_two_lt
  have hexp : 1000 *
        (0.5 * 1150 * (2 * ((16/5 : ℚ) : ℝ) / ((19/50 : ℚ) : ℝ)) ^ 3 * 2 * 2 *
          ((1/10 : ℚ) : ℝ) * (0.5 * ((19/50 : ℚ) : ℝ)) ^ 4 * (Real.sqrt 2 / 2) /
          (408 * 9.81)) /
      (0.00114 * ((1/60 : ℚ) : ℝ) * ((90 : ℚ) : ℝ)) =
      (47104000000 / 450279) * Real.sqrt 2 := by
    push_cast
    ring
  rw [hexp]
  constructor
  · rw [show (200:ℝ) = Real.sqrt (200 ^ 2) by rw [Real.sqrt_sq (by norm_num)]]
    apply Real.sqrt_le_sqrt
    nlinarith
  · rw [show (500:ℝ) = Real.sqrt (500 ^ 2) by rw [Real.sqrt_sq (by norm_num)]]
    apply Real.sqrt_le_sqrt
    nlinarith

lemma floc_vloop_c7 : floc_v1_loop 40 1440 none = (16/5, 0) := by
  unfold floc_v1_loop
  rw [show flocTipSpeed 40 = 16/5 by norm_num [flocTipSpeed]]
  exact gLoop_stop floc_G_c7 50

lemma floc_log_c7 : floc_log 40 1440 none = [] := by
  unfold floc_log
  rw [floc_vloop_c7]
  simp [floc_d1_loop_iters_c7]

/-- Claim C7 counterexample: at the valid input SS = 40 mg/L, flow = 1440 m³/d
(no peak-flow override) the draft-tube top clearance computes to a value ≤ 0 and
is replaced by the 0.1 m floor, yet the returned adjustment record is empty: the
substitution is NOT recorded as a log entry, contradicting the claim. -/
theorem clamp_fires_without_log_entry :
    floc_h_guide_top_raw 40 1440 ≤ 0 ∧
    floc_h_guide_top 40 1440 = 0.1 ∧
    floc_log 40 1440 none = [] :=
  ⟨le_of_eq (floc_top_raw_zero 40 1440), floc_top_floor 40 1440, floc_log_c7⟩

/-- Claim C7 (amended): whenever the draft-tube top clearance computes to a
value ≤ 0 — which in fact happens on every invocation, since the clearance is
exactly 0 — it is replaced by the positive floor 0.1 m and the computation
proceeds without any division fault; the substitution is silent, however: no
entry is added to the adjustment record, which is empty on a run where neither
adjustment loop iterated (SS = 40 mg/L, flow = 1440 m³/d). -/
theorem guarded_division_clamps_silently :
    (∀ ss flow : ℚ, floc_h_guide_top_raw ss flow = 0 ∧ floc_h_guide_top ss flow = 0.1) ∧
    floc_log 40 1440 none = [] := by
  exact ⟨fun ss flow => ⟨floc_top_raw_zero ss flow, floc_top_floor ss flow⟩, floc_log_c7⟩

lemma rpow_ratio_le {x b : ℝ} {p q : ℕ} (hq : q ≠ 0) (hx : 0 ≤ x) (hb : 0 ≤ b)
    (h : x ^ p ≤ b ^ q) : x ^ ((p : ℝ) / (q : ℝ)) ≤ b := by
  have hqR : ((q:ℝ)) ≠ 0 := Nat.cast_ne_zero.mpr hq
  have hxq : (x ^ ((p:ℝ)/(q:ℝ))) ^ q = x ^ p := by
    rw [← Real.rpow_natCast (x ^ ((p:ℝ)/(q:ℝ))) q, ← Real.rpow_mul hx,
      div_mul_cancel₀ _ hqR, Real.rpow_natCast]
  exact le_of_pow_le_pow_left₀ hq hb (by rw [hxq]; exact h)

lemma le_rpow_ratio {x b : ℝ} {p q : ℕ} (hq : q ≠ 0) (hx : 0 ≤ x) (_hb : 0 ≤ b)
    (h : b ^ q ≤ x ^ p) : b ≤ x ^ ((p : ℝ) / (q : ℝ)) := by
  have hqR : ((q:ℝ)) ≠ 0 := Nat.cast_ne_zero.mpr hq
  have hxq : (x ^ ((p:ℝ)/(q:ℝ))) ^ q = x ^ p := by
    rw [← Real.rpow_natCast (x ^ ((p:ℝ)/(q:ℝ))) q, ← Real.rpow_mul hx,
      div_mul_cancel₀ _ hqR, Real.rpow_natCast]
  exact le_of_pow_le_pow_left₀ hq (Real.rpow_nonneg hx _) (by rw [hxq]; exact h)

lemma rpow_bounds (xl xh L H : ℝ) (p q : ℕ) {x : ℝ} (hq : q ≠ 0) (hxl : 0 ≤ xl)
    (hL : 0 ≤ L) (hH : 0 ≤ H) (hl : xl ≤ x) (hh : x ≤ xh)
    (h1 : L ^ q ≤ xl ^ p) (h2 : xh ^ p ≤ H ^ q) :
    L ≤ x ^ ((p : ℝ) / (q : ℝ)) ∧ x ^ ((p : ℝ) / (q : ℝ)) ≤ H := by
  have hx : 0 ≤ x := le_trans hxl hl
  constructor
  · calc L ≤ xl ^ ((p:ℝ)/(q:ℝ)) := le_rpow_ratio hq hxl hL h1
      _ ≤ x ^ ((p:ℝ)/(q:ℝ)) := Real.rpow_le_rpow hxl hl (by positivity)
  · calc x ^ ((p:ℝ)/(q:ℝ)) ≤ xh ^ ((p:ℝ)/(q:ℝ)) := Real.rpow_le_rpow hx hh (by positivity)
      _ ≤ H := rpow_ratio_le hq (le_trans hx hh) hH h2

lemma cube_rpow_third {x : ℝ} (hx : 0 ≤ x) : (x ^ (3:ℕ)) ^ ((1:ℝ)/3) = x := by
  rw [← Real.rpow_natCast x 3, ← Real.rpow_mul hx,
    show (3:ℕ) * ((1:ℝ)/3) = 1 by push_cast; norm_num, Real.rpow_one]

lemma floc_V1_c5 : floc_V1 10 c5Flow = 3/2 * (1249/10000) ^ 3 := by
  norm_num [floc_V1, forwardVolume, flocRetentionTime, c5Flow]

lemma floc_l_c5 : floc_l 10 c5Flow = 1249/10000 := by
  unfold floc_l rectSide
  rw [floc_V1_c5,
    show ((3/2 * (1249/10000) ^ 3 : ℚ) : ℝ) / 1.5 = ((1249/10000 : ℝ)) ^ (3:ℕ) by
      push_cast; norm_num]
  exact cube_rpow_third (by norm_num)

lemma floc_D_c5 : floc_D 10 c5Flow = 2 * (1249/10000) / Real.sqrt Real.pi := by
  unfold floc_D
  rw [floc_l_c5, equivDiameter_self (by norm_num : (0:ℝ) ≤ 1249/10000)]

lemma sqrt_pi_ne : Real.sqrt Real.pi ≠ 0 :=
  ne_of_gt (Real.sqrt_pos.mpr Real.pi_pos)

lemma floc_D_c5_pos : 0 < floc_D 10 c5Flow := by
  rw [floc_D_c5]
  have h := Real.sqrt_pos.mpr Real.pi_pos
  positivity

lemma floc_Dd_c5 : floc_D_d 10 c5Flow = (13739/50000) / Real.sqrt Real.pi := by
  unfold floc_D_d
  rw [floc_D_c5]
  field_simp
  ring

lemma floc_d1_init_c5 : floc_d1_init 10 c5Flow = 1/20 := by
  unfold floc_d1_init
  rw [floc_D_c5, show (mixerDiameterRatio 10 : ℚ) = 1/3 by norm_num [mixerDiameterRatio]]
  have hsl := sqrt_pi_gt
  have hsh := sqrt_pi_lt
  have hsp : (0:ℝ) < Real.sqrt Real.pi := by linarith
  have he : ((1/3 : ℚ) : ℝ) * (2 * (1249/10000) / Real.sqrt Real.pi) * 100 =
      (1249/15) / (10 * Real.sqrt Real.pi) := by
    push_cast
    field_simp
    ring
  have hceil : ⌈((1/3 : ℚ) : ℝ) * (2 * (1249/10000) / Real.sqrt Real.pi) * 100⌉ = (5 : ℤ) := by
    rw [Int.ceil_eq_iff, he]
    constructor
    · rw [lt_div_iff₀ (by positivity)]
      push_cast
      nlinarith
    · rw [div_le_iff₀ (by positivity)]
      push_cast
      nlinarith
  rw [hceil]
  norm_num

lemma floc_areaRatio_c5 : floc_areaRatio 10 c5Flow (1/20) < 1/4 := by
  unfold floc_areaRatio floc_S
  rw [floc_l_c5]
  have := Real.pi_lt_d2
  rw [div_lt_iff₀ (by norm_num)]
  push_cast
  nlinarith

lemma floc_d1_c5 : floc_d1 10 c5Flow = 1/20 := by
  unfold floc_d1 floc_d1_loop
  rw [floc_d1_init_c5, dLoop_stop floc_areaRatio_c5]

lemma floc_b_c5 : floc_b 10 c5Flow = 1/10 := by
  unfold floc_b
  rw [floc_d1_c5]
  norm_num [bladeWidth]

lemma floc_e_c5 : floc_e 10 c5Flow = 2 := by
  unfold floc_e floc_h2 commonLayerCount
  have hD := floc_D_c5_pos
  rw [if_pos]
  rw [show 1.5 * floc_D 10 c5Flow / floc_D 10 c5Flow = 1.5 by field_simp]
  norm_num

lemma floc_Qmax1_c5 : floc_Qmax1 c5Flow (some (1/100)) = 1/8640000 := by
  norm_num [floc_Qmax1, Option.getD]

lemma floc_G_c5_high (v : ℚ) (hv : (19/20) ^ 49 * (16/5) ≤ v) :
    500 < floc_G1v 10 c5Flow (some (1/100)) v := by
  unfold floc_G1v floc_N1v
  rw [floc_d1_c5, floc_b_c5, floc_e_c5, sin_radians_45, floc_Qmax1_c5,
    show flocRetentionTime 10 = 90 by norm_num [flocRetentionTime]]
  have hexp : 1000 *
      (0.5 * 1150 * (2 * (v : ℝ) / ((1/20 : ℚ) : ℝ)) ^ 3 * 2 * 2 * ((1/10 : ℚ) : ℝ) *
        (0.5 * ((1/20 : ℚ) : ℝ)) ^ 4 * (Real.sqrt 2 / 2) / (408 * 9.81)) /
      (0.00114 * ((1/8640000 : ℚ) : ℝ) * ((90 : ℚ) : ℝ)) =
      (57500000000000 / 950589) * (v : ℝ) ^ 3 * Real.sqrt 2 := by
    push_cast
    ring
  rw [hexp]
  rw [show (500:ℝ) = Real.sqrt (500 ^ 2) by rw [Real.sqrt_sq (by norm_num)]]
  apply Real.sqrt_lt_sqrt (by norm_num)
  have hvR : ((19/20 : ℝ)) ^ 49 * (16/5) ≤ (v : ℝ) := by
    have h := (Rat.cast_le (K := ℝ)).mpr hv
    push_cast at h
    convert h using 2
  have hv0 : (0:ℝ) ≤ (19/20 : ℝ) ^ 49 * (16/5) := by positivity
  have hcube : (((19/20 : ℝ)) ^ 49 * (16/5)) ^ 3 ≤ (v : ℝ) ^ 3 :=
    pow_le_pow_left₀ hv0 hvR 3
  have h2g : (1.414:ℝ) ≤ Real.sqrt 2 := sqrt_two_gt.le
  calc (500:ℝ) ^ 2
      < (57500000000000 / 950589) * (((19/20 : ℝ)) ^ 49 * (16/5)) ^ 3 * 1.414 := by norm_num
    _ ≤ (57500000000000 / 950589) * (v : ℝ) ^ 3 * Real.sqrt 2 := by gcongr

lemma floc_vloop_c5 :
    floc_v1_loop 10 c5Flow (some (1/100)) = ((19/20) ^ 50 * (16/5), 50) := by
  unfold floc_v1_loop
  rw [show flocTipSpeed 10 = 16/5 by norm_num [flocTipSpeed]]
  have hall : ∀ j : ℕ, j < 50 →
      500 < floc_G1v 10 c5Flow (some (1/100)) ((19/20) ^ j * (16/5)) := by
    intro j hj
    apply floc_G_c5_high
    have h1 : ((19:ℚ)/20) ^ 49 ≤ (19/20) ^ j :=
      pow_le_pow_of_le_one (by norm_num) (by norm_num) (by omega)
    nlinarith
  rw [gLoop_all_above (by norm_num) 50 (16/5) 0 hall]

lemma floc_v1_c5 : floc_v1 10 c5Flow (some (1/100)) = (19/20) ^ 50 * (16/5) := by
  unfold floc_v1
  rw [floc_vloop_c5]

lemma floc_n1_c5 :
    floc_n1 10 c5Flow (some (1/100)) =
      1200 * ((19/20 : ℝ)) ^ 50 * (16/5) / Real.pi := by
  unfold floc_n1
  rw [floc_v1_c5, floc_d1_c5]
  have hpi := Real.pi_pos
  push_cast
  field_simp
  ring

lemma base1_c5 :
    (floc_d1 10 c5Flow : ℝ) / floc_D_d 10 c5Flow =
      Real.sqrt Real.pi * (2500/13739) := by
  rw [floc_d1_c5, floc_Dd_c5]
  have h := sqrt_pi_ne
  push_cast
  field_simp
  ring

lemma base2_c5 :
    (floc_b 10 c5Flow : ℝ) / floc_D_d 10 c5Flow =
      Real.sqrt Real.pi * (5000/13739) := by
  rw [floc_b_c5, floc_Dd_c5]
  have h := sqrt_pi_ne
  push_cast
  field_simp
  ring

lemma base3_c5 :
    floc_l1_single 10 c5Flow / floc_D_d 10 c5Flow =
      Real.sqrt Real.pi * (3750/13739) := by
  unfold floc_l1_single
  rw [floc_d1_c5, floc_Dd_c5]
  have h := sqrt_pi_ne
  push_cast
  field_simp
  ring

lemma floc_Sd_c5 : floc_S_d 10 c5Flow = (13739/100000) ^ 2 := by
  unfold floc_S_d
  rw [floc_Dd_c5]
  have h := sqrt_pi_ne
  have hsq : Real.sqrt Real.pi ^ 2 = Real.pi := Real.sq_sqrt Real.pi_pos.le
  have hpi := Real.pi_pos.ne.symm
  field_simp
  nlinarith [hsq, Real.pi_pos]

lemma floc_Spool_c5 : floc_S_pool 10 c5Flow = (1249/10000) ^ 2 := by
  unfold floc_S_pool
  rw [floc_l_c5]
  ring

lemma floc_den3_c5 :
    floc_S_pool 10 c5Flow - floc_S_d 10 c5Flow = -(32760021/10000000000) := by
  rw [floc_Spool_c5, floc_Sd_c5]
  norm_num

lemma floc_Dd1_c5 :
    floc_D_d1 10 c5Flow = (13739/50000) / Real.sqrt Real.pi + 3/10 := by
  unfold floc_D_d1 floc_h_horn
  rw [floc_Dd_c5, cos_radians_60]
  norm_num

lemma floc_Qn_c5 :
    floc_Q_n 10 c5Flow (some (1/100)) =
      1.05 * (Real.sqrt Real.pi * (2500/13739)) ^ (0.848 : ℝ) *
        (Real.sqrt Real.pi * (5000/13739)) ^ (0.413 : ℝ) *
        (2 : ℝ) ^ (0.375 : ℝ) *
        (Real.sqrt Real.pi * (3750/13739)) ^ (0.762 : ℝ) *
        (20 * ((19/20 : ℝ)) ^ 50 * (16/5) / Real.pi) *
        ((13739/50000) / Real.sqrt Real.pi) ^ 3 + 1/8640000 := by
  unfold floc_Q_n floc_r_guide
  rw [base1_c5, base2_c5, base3_c5, floc_e_c5, floc_n1_c5, floc_Dd_c5, floc_Qmax1_c5]
  have hpi := Real.pi_pos.ne.symm
  have hs := sqrt_pi_ne
  push_cast
  field_simp
  ring

lemma fac1_c5 :
    38304/100000 ≤ (Real.sqrt Real.pi * (2500/13739)) ^ (0.848 : ℝ) ∧
    (Real.sqrt Real.pi * (2500/13739)) ^ (0.848 : ℝ) ≤ 38307/100000 := by
  have hsl := sqrt_pi_gt
  have hsh := sqrt_pi_lt
  rw [show (0.848 : ℝ) = ((106:ℕ) : ℝ) / ((125:ℕ) : ℝ) by norm_num]
  exact rpow_bounds (1.772453 * (2500/13739)) (1.772454 * (2500/13739))
    (38304/100000) (38307/100000) 106 125 (by norm_num) (by norm_num)
    (by norm_num) (by norm_num) (by nlinarith) (by nlinarith)
    (by norm_num) (by norm_num)

lemma fac2_c5 :
    83436/100000 ≤ (Real.sqrt Real.pi * (5000/13739)) ^ (0.413 : ℝ) ∧
    (Real.sqrt Real.pi * (5000/13739)) ^ (0.413 : ℝ) ≤ 83439/100000 := by
  have hsl := sqrt_pi_gt
  have hsh := sqrt_pi_lt
  rw [show (0.413 : ℝ) = ((413:ℕ) : ℝ) / ((1000:ℕ) : ℝ) by norm_num]
  exact rpow_bounds (1.772453 * (5000/13739)) (1.772454 * (5000/13739))
    (83436/100000) (83439/100000) 413 1000 (by norm_num) (by norm_num)
    (by norm_num) (by norm_num) (by nlinarith) (by nlinarith)
    (by norm_num) (by norm_num)

lemma fac3_c5 :
    129683/100000 ≤ (2 : ℝ) ^ (0.375 : ℝ) ∧
    (2 : ℝ) ^ (0.375 : ℝ) ≤ 129685/100000 := by
  rw [show (0.375 : ℝ) = ((3:ℕ) : ℝ) / ((8:ℕ) : ℝ) by norm_num]
  exact rpow_bounds 2 2 (129683/100000) (129685/100000) 3 8 (by norm_num)
    (by norm_num) (by norm_num) (by norm_num) (by norm_num) (by norm_num)
    (by norm_num) (by norm_num)

lemma fac4_c5 :
    57503/100000 ≤ (Real.sqrt Real.pi * (3750/13739)) ^ (0.762 : ℝ) ∧
    (Real.sqrt Real.pi * (3750/13739)) ^ (0.762 : ℝ) ≤ 57506/100000 := by
  have hsl := sqrt_pi_gt
  have hsh := sqrt_pi_lt
  rw [show (0.762 : ℝ) = ((381:ℕ) : ℝ) / ((500:ℕ) : ℝ) by norm_num]
  exact rpow_bounds (1.772453 * (3750/13739)) (1.772454 * (3750/13739))
    (57503/100000) (57506/100000) 381 500 (by norm_num) (by norm_num)
    (by norm_num) (by norm_num) (by nlinarith) (by nlinarith)
    (by norm_num) (by norm_num)

lemma floc_Qn_bounds_c5 :
    (14616/10000000 : ℝ) ≤ floc_Q_n 10 c5Flow (some (1/100)) ∧
    floc_Q_n 10 c5Flow (some (1/100)) ≤ 14619/10000000 := by
  rw [floc_Qn_c5]
  obtain ⟨h1l, h1h⟩ := fac1_c5
  obtain ⟨h2l, h2h⟩ := fac2_c5
  obtain ⟨h3l, h3h⟩ := fac3_c5
  obtain ⟨h4l, h4h⟩ := fac4_c5
  have hsl : (1.772453:ℝ) ≤ Real.sqrt Real.pi := sqrt_pi_gt.le
  have hsh : Real.sqrt Real.pi ≤ 1.772454 := sqrt_pi_lt.le
  have hpl : (3.141592:ℝ) ≤ Real.pi := Real.pi_gt_d6.le
  have hph : Real.pi ≤ 3.141593 := Real.pi_lt_d6.le
  have hsp : (0:ℝ) < Real.sqrt Real.pi := by linarith
  have hpp : (0:ℝ) < Real.pi := by linarith
  constructor
  · calc (14616/10000000 : ℝ)
        ≤ 1.05 * (38304/100000) * (83436/100000) * (129683/100000) * (57503/100000) *
            (20 * ((19/20:ℝ)) ^ 50 * (16/5) / 3.141593) *
            ((13739/50000) / 1.772454) ^ 3 + 1/8640000 := by norm_num
      _ ≤ 1.05 * (Real.sqrt Real.pi * (2500/13739)) ^ (0.848 : ℝ) *
            (Real.sqrt Real.pi * (5000/13739)) ^ (0.413 : ℝ) *
            (2 : ℝ) ^ (0.375 : ℝ) *
            (Real.sqrt Real.pi * (3750/13739)) ^ (0.762 : ℝ) *
            (20 * ((19/20 : ℝ)) ^ 50 * (16/5) / Real.pi) *
            ((13739/50000) / Real.sqrt Real.pi) ^ 3 + 1/8640000 := by
          gcongr
  · calc 1.05 * (Real.sqrt Real.pi * (2500/13739)) ^ (0.848 : ℝ) *
            (Real.sqrt Real.pi * (5000/13739)) ^ (0.413 : ℝ) *
            (2 : ℝ) ^ (0.375 : ℝ) *
            (Real.sqrt Real.pi * (3750/13739)) ^ (0.762 : ℝ) *
            (20 * ((19/20 : ℝ)) ^ 50 * (16/5) / Real.pi) *
            ((13739/50000) / Real.sqrt Real.pi) ^ 3 + 1/8640000
        ≤ 1.05 * (38307/100000) * (83439/100000) * (129685/100000) * (57506/100000) *
            (20 * ((19/20:ℝ)) ^ 50 * (16/5) / 3.141592) *
            ((13739/50000) / 1.772453) ^ 3 + 1/8640000 := by
          gcongr
      _ ≤ 14619/10000000 := by norm_num

lemma pi_div_sqrt_pi : Real.pi / Real.sqrt Real.pi = Real.sqrt Real.pi := by
  rw [div_eq_iff sqrt_pi_ne]
  exact (Real.mul_self_sqrt Real.pi_pos.le).symm

lemma floc_den2_c5 :
    floc_h_guide_top 10 c5Flow * floc_D_d 10 c5Flow * Real.pi =
      (13739/500000) * Real.sqrt Real.pi := by
  rw [floc_top_floor, floc_Dd_c5]
  calc (0.1:ℝ) * ((13739/50000) / Real.sqrt Real.pi) * Real.pi
      = (13739/500000) * (Real.pi / Real.sqrt Real.pi) := by ring
    _ = (13739/500000) * Real.sqrt Real.pi := by rw [pi_div_sqrt_pi]

lemma floc_plate_c5 :
    floc_h_guide_plate 10 c5Flow = (3747/20000) / Real.sqrt Real.pi := by
  unfold floc_h_guide_plate floc_h2
  rw [floc_D_c5]
  field_simp
  ring

lemma floc_den5_c5 :
    floc_h_guide_plate 10 c5Flow * floc_D_d1 10 c5Flow * Real.pi =
      (3747/20000) * Real.sqrt Real.pi * ((13739/50000) / Real.sqrt Real.pi + 3/10) := by
  rw [floc_plate_c5, floc_Dd1_c5]
  calc (3747/20000) / Real.sqrt Real.pi *
        ((13739/50000) / Real.sqrt Real.pi + 3/10) * Real.pi
      = (3747/20000) * (Real.pi / Real.sqrt Real.pi) *
          ((13739/50000) / Real.sqrt Real.pi + 3/10) := by ring
    _ = (3747/20000) * Real.sqrt Real.pi *
          ((13739/50000) / Real.sqrt Real.pi + 3/10) := by rw [pi_div_sqrt_pi]

lemma floc_Sd1_c5 :
    floc_S_d1 10 c5Flow =
      Real.pi * (((13739/50000) / Real.sqrt Real.pi + 3/10) / 2) ^ 2 := by
  unfold floc_S_d1
  rw [floc_Dd1_c5]

set_option maxHeartbeats 1600000 in
/-- Claim C5 counterexample: the velocity-consistency flag does not agree with
the five-velocity spread.  At SS = 10 mg/L, flow `c5Flow ≈ 2.806 m³/d`, peak
flow 0.01 m³/d, the code's checked spread (over the four annulus velocities)
is below 0.5 m/s, so `velocity_check_ok` is true — but the spread over all five
cross-section velocities, including the internal tube velocity `v1_guide`,
is at least 0.5 m/s, so the claimed equivalence fails. -/
theorem velocity_check_ignores_guide_velocity :
    floc_velocity_check_ok 10 c5Flow (some (1/100)) = true ∧
    ¬ spec_fiveVelocitySpread 10 c5Flow (some (1/100)) < 0.5 := by
  obtain ⟨hql, hqh⟩ := floc_Qn_bounds_c5
  have hsl : (1.772453:ℝ) ≤ Real.sqrt Real.pi := sqrt_pi_gt.le
  have hsh : Real.sqrt Real.pi ≤ 1.772454 := sqrt_pi_lt.le
  have hpl : (3.141592:ℝ) ≤ Real.pi := Real.pi_gt_d6.le
  have hsp : (0:ℝ) < Real.sqrt Real.pi := by linarith
  have hQpos : 0 < floc_Q_n 10 c5Flow (some (1/100)) :=
    lt_of_lt_of_le (by norm_num) hql
  have hv2 : floc_v2_upper 10 c5Flow (some (1/100)) =
      floc_Q_n 10 c5Flow (some (1/100)) / ((13739/500000) * Real.sqrt Real.pi) := by
    unfold floc_v2_upper
    rw [floc_den2_c5]
  have hv3 : floc_v3_above_horn 10 c5Flow (some (1/100)) =
      -(floc_Q_n 10 c5Flow (some (1/100)) * (10000000000/32760021)) := by
    unfold floc_v3_above_horn
    rw [floc_den3_c5]
    ring
  have hv1g : floc_v1_guide 10 c5Flow (some (1/100)) =
      floc_Q_n 10 c5Flow (some (1/100)) * (10000000000/188760121) := by
    unfold floc_v1_guide
    rw [floc_Sd_c5]
    ring
  have hv5 : floc_v5_below 10 c5Flow (some (1/100)) =
      floc_Q_n 10 c5Flow (some (1/100)) /
        ((3747/20000) * Real.sqrt Real.pi * ((13739/50000) / Real.sqrt Real.pi + 3/10)) := by
    unfold floc_v5_below
    rw [floc_den5_c5]
  have hv4 : floc_v4_horn 10 c5Flow (some (1/100)) =
      floc_Q_n 10 c5Flow (some (1/100)) /
        ((1249/10000) ^ 2 -
          Real.pi * (((13739/50000) / Real.sqrt Real.pi + 3/10) / 2) ^ 2) := by
    unfold floc_v4_horn
    rw [floc_Spool_c5, floc_Sd1_c5]
  have hd2pos : (0:ℝ) < (13739/500000) * Real.sqrt Real.pi := by positivity
  have hDd1lo : (3/10:ℝ) ≤ (13739/50000) / Real.sqrt Real.pi + 3/10 := by
    have : (0:ℝ) ≤ (13739/50000) / Real.sqrt Real.pi := by positivity
    linarith
  have hd5lo : (13739/500000:ℝ) * Real.sqrt Real.pi ≤
      (3747/20000) * Real.sqrt Real.pi * ((13739/50000) / Real.sqrt Real.pi + 3/10) := by
    calc (13739/500000:ℝ) * Real.sqrt Real.pi
        ≤ (3747/20000) * Real.sqrt Real.pi * (3/10) := by nlinarith
      _ ≤ (3747/20000) * Real.sqrt Real.pi * ((13739/50000) / Real.sqrt Real.pi + 3/10) := by
          gcongr
  have hSd1lo : (3.141592:ℝ) * (3/20) ^ 2 ≤
      Real.pi * (((13739/50000) / Real.sqrt Real.pi + 3/10) / 2) ^ 2 := by
    have h1 : ((3/20:ℝ)) ^ 2 ≤ (((13739/50000) / Real.sqrt Real.pi + 3/10) / 2) ^ 2 := by
      have h0 : (3/20:ℝ) ≤ ((13739/50000) / Real.sqrt Real.pi + 3/10) / 2 := by linarith
      gcongr
    nlinarith [Real.pi_pos]
  have hden4neg : (1249/10000:ℝ) ^ 2 -
      Real.pi * (((13739/50000) / Real.sqrt Real.pi + 3/10) / 2) ^ 2 < 0 := by
    nlinarith
  have hden4le : (1249/10000:ℝ) ^ 2 -
      Real.pi * (((13739/50000) / Real.sqrt Real.pi + 3/10) / 2) ^ 2 ≤
        -(32760021/10000000000) := by
    nlinarith
  have hv2pos : 0 < floc_v2_upper 10 c5Flow (some (1/100)) := by
    rw [hv2]; exact div_pos hQpos hd2pos
  have hv3neg : floc_v3_above_horn 10 c5Flow (some (1/100)) < 0 := by
    rw [hv3]
    have : 0 < floc_Q_n 10 c5Flow (some (1/100)) * (10000000000/32760021) := by positivity
    linarith
  have hv4neg : floc_v4_horn 10 c5Flow (some (1/100)) < 0 := by
    rw [hv4]; exact div_neg_of_pos_of_neg hQpos hden4neg
  have hv5pos : 0 < floc_v5_below 10 c5Flow (some (1/100)) := by
    rw [hv5]
    exact div_pos hQpos (lt_of_lt_of_le hd2pos hd5lo)
  have h52 : floc_v5_below 10 c5Flow (some (1/100)) ≤
      floc_v2_upper 10 c5Flow (some (1/100)) := by
    rw [hv5, hv2]
    gcongr
  have h34 : floc_v3_above_horn 10 c5Flow (some (1/100)) ≤
      floc_v4_horn 10 c5Flow (some (1/100)) := by
    rw [hv3, hv4]
    set d4 := (1249/10000:ℝ) ^ 2 -
      Real.pi * (((13739/50000) / Real.sqrt Real.pi + 3/10) / 2) ^ 2 with hd4
    have hd4ne : d4 ≠ 0 := ne_of_lt hden4neg
    have hQd : floc_Q_n 10 c5Flow (some (1/100)) / d4 +
        floc_Q_n 10 c5Flow (some (1/100)) * (10000000000/32760021) =
        floc_Q_n 10 c5Flow (some (1/100)) *
          ((10000000000/32760021) * (d4 + 32760021/10000000000)) / d4 := by
      field_simp
      ring
    have hnum : d4 + 32760021/10000000000 ≤ 0 := by linarith
    have hfrac : 0 ≤ floc_Q_n 10 c5Flow (some (1/100)) *
        ((10000000000/32760021) * (d4 + 32760021/10000000000)) / d4 := by
      rw [div_nonneg_iff]
      right
      constructor
      · apply mul_nonpos_of_nonneg_of_nonpos hQpos.le
        nlinarith
      · exact hden4neg.le
    linarith [hQd, hfrac]
  have h32 : floc_v3_above_horn 10 c5Flow (some (1/100)) ≤
      floc_v2_upper 10 c5Flow (some (1/100)) := le_trans hv3neg.le hv2pos.le
  have h42 : floc_v4_horn 10 c5Flow (some (1/100)) ≤
      floc_v2_upper 10 c5Flow (some (1/100)) := le_trans hv4neg.le hv2pos.le
  have h35 : floc_v3_above_horn 10 c5Flow (some (1/100)) ≤
      floc_v5_below 10 c5Flow (some (1/100)) := le_trans hv3neg.le hv5pos.le
  have hv2hi : floc_v2_upper 10 c5Flow (some (1/100)) ≤
      (14619/10000000) / ((13739/500000) * 1.772453) := by
    rw [hv2]
    gcongr
  have hv3mag : floc_Q_n 10 c5Flow (some (1/100)) * (10000000000/32760021) ≤
      (14619/10000000) * (10000000000/32760021) := by
    gcongr
  have hv3mag2 : (14616/10000000) * (10000000000/32760021) ≤
      floc_Q_n 10 c5Flow (some (1/100)) * (10000000000/32760021) := by
    gcongr
  have hv1glo : (14616/10000000) * (10000000000/188760121) ≤
      floc_v1_guide 10 c5Flow (some (1/100)) := by
    rw [hv1g]
    gcongr
  have hdiffA : floc_velocity_diff 10 c5Flow (some (1/100)) ≤
      floc_v2_upper 10 c5Flow (some (1/100)) -
        floc_v3_above_horn 10 c5Flow (some (1/100)) := by
    unfold floc_velocity_diff
    apply sub_le_sub
    · exact max_le (max_le le_rfl h32) (max_le h42 h52)
    · exact le_min (le_min h32 le_rfl) (le_min h34 h35)
  have hA : floc_velocity_diff 10 c5Flow (some (1/100)) < 0.5 := by
    have hsum : floc_v2_upper 10 c5Flow (some (1/100)) -
        floc_v3_above_horn 10 c5Flow (some (1/100)) < 0.5 := by
      rw [hv3]
      have : floc_v2_upper 10 c5Flow (some (1/100)) +
          floc_Q_n 10 c5Flow (some (1/100)) * (10000000000/32760021) < 0.5 := by
        have hcalc : (14619/10000000:ℝ) / ((13739/500000) * 1.772453) +
            (14619/10000000) * (10000000000/32760021) < 0.5 := by norm_num
        linarith
      linarith
    linarith
  constructor
  · simp only [floc_velocity_check_ok, decide_eq_true_eq]
    exact hA
  · rw [not_lt]
    unfold spec_fiveVelocitySpread
    have hmax5 : floc_v1_guide 10 c5Flow (some (1/100)) ≤
        max (max (max (max (floc_v1_guide 10 c5Flow (some (1/100)))
          (floc_v2_upper 10 c5Flow (some (1/100))))
          (floc_v3_above_horn 10 c5Flow (some (1/100))))
          (floc_v4_horn 10 c5Flow (some (1/100))))
          (floc_v5_below 10 c5Flow (some (1/100))) :=
      le_max_of_le_left (le_max_of_le_left (le_max_of_le_left (le_max_left _ _)))
    have hmin5 : min (min (min (min (floc_v1_guide 10 c5Flow (some (1/100)))
        (floc_v2_upper 10 c5Flow (some (1/100))))
        (floc_v3_above_horn 10 c5Flow (some (1/100))))
        (floc_v4_horn 10 c5Flow (some (1/100))))
        (floc_v5_below 10 c5Flow (some (1/100))) ≤
        floc_v3_above_horn 10 c5Flow (some (1/100)) :=
      min_le_of_left_le (min_le_of_left_le (min_le_right _ _))
    have hgap : (0.5:ℝ) ≤ floc_v1_guide 10 c5Flow (some (1/100)) -
        floc_v3_above_horn 10 c5Flow (some (1/100)) := by
      rw [hv3]
      have hcalc : (0.5:ℝ) ≤ (14616/10000000) * (10000000000/188760121) +
          (14616/10000000) * (10000000000/32760021) := by norm_num
      linarith
    linarith [sub_le_sub hmax5 hmin5]

/-- Claim C5 (amended): the designer computes all five cross-section velocities,
but `velocity_check_ok` is the comparison of the max − min spread over only the
FOUR annulus velocities `v2_upper, v3_above_horn, v4_horn, v5_below` against
0.5 m/s; the internal tube velocity `v1_guide` is computed yet excluded from
the checked list. -/
theorem velocity_check_spreads_four (ss flow : ℚ) (qmax : Option ℚ) :
    (floc_velocity_check_ok ss flow qmax = true ↔
      floc_velocity_diff ss flow qmax < 0.5) ∧
    floc_velocity_diff ss flow qmax =
      max (max (floc_v2_upper ss flow qmax) (floc_v3_above_horn ss flow qmax))
        (max (floc_v4_horn ss flow qmax) (floc_v5_below ss flow qmax)) -
      min (min (floc_v2_upper ss flow qmax) (floc_v3_above_horn ss flow qmax))
        (min (floc_v4_horn ss flow qmax) (floc_v5_below ss flow qmax)) :=
  ⟨by simp [floc_velocity_check_ok], rfl⟩
